import Mathlib

/-!
Verification of the PapaDuck store-and-forward bridge
(src/examples/1.Ducks/PapaDuck/PapaDuck.ino).

The sketch receives raw packets from the duck mesh via the callback
handleDuckData, translates each into a JSON message (quackJson), attempts
an immediate MQTT publish, and on failure retains the raw packet in the
global std::queue packetQueue (capacity governed by QUEUE_SIZE_MAX).
The loop() function runs a WiFi-reconnect branch and an MQTT branch
(setup_mqtt), both gated by the shared boolean flag retry, which is
cleared on a failed attempt and re-set by the one-shot timer callback
enableRetry.  publishQueue drains the retention queue front-first,
stopping at the first failed publish.

We embed these functions as pure Lean definitions.  External collaborators
(the MQTT client, the WiFi stack, the radio) are modelled as per-tick
oracle inputs, mirroring exactly how their results steer the control flow
of the sketch.
-/

namespace PapaDuck

/-- A byte, as stored in the sketch's std::vector of bytes. -/
abbrev Byte := Nat

/-- A raw packet: the std::vector of bytes handed to handleDuckData. -/
abbrev Packet := List Byte

/-- Source line: int QUEUE_SIZE_MAX = 5. -/
def QUEUE_SIZE_MAX : Nat := 5

namespace topics

/-- Modelled from the spec: the topic-code constants come from the enum
topics in CdpPacket.h, which is part of this repository but not under
src/.  The spec names the enumerated set \x7bstatus, cpm, sensor, alert,
location, health\x7d; the numeric values used here are distinct small
integers (distinctness is forced by the compiling switch statement in
toTopicString). -/
def status : Nat := 0x10

/-- Modelled from the spec: member of the topics enum (see topics.status). -/
def cpm : Nat := 0x11

/-- Modelled from the spec: member of the topics enum (see topics.status). -/
def sensor : Nat := 0x12

/-- Modelled from the spec: member of the topics enum (see topics.status). -/
def alert : Nat := 0x13

/-- Modelled from the spec: member of the topics enum (see topics.status). -/
def location : Nat := 0x14

/-- Modelled from the spec: member of the topics enum (see topics.status). -/
def health : Nat := 0x15

end topics

/-- Embedding of toTopicString (PapaDuck.ino lines 97-125): a switch on the
topic code byte; the default branch yields "status". -/
def toTopicString (topic : Nat) : String :=
  if topic = topics.status then "status"
  else if topic = topics.cpm then "portal"
  else if topic = topics.sensor then "sensor"
  else if topic = topics.alert then "alert"
  else if topic = topics.location then "gps"
  else if topic = topics.health then "health"
  else "status"

/-- Modelled from the spec: the decoder (the CdpPacket constructor in
CdpPacket.h, not under src/) rejects buffers shorter than a fixed minimum
frame size.  The exact byte count is fixed in CdpPacket.h; every result
below only needs the bound to be positive. -/
def MIN_FRAME_SIZE : Nat := 27

/-- The decoded CDP packet as used by quackJson: the fields of the
CdpPacket object it reads (sduid, dduid, muid, path, data, hopCount,
duckType, topic). -/
structure CdpPacket where
  sduid : List Byte
  dduid : List Byte
  muid : List Byte
  path : List Byte
  data : List Byte
  hopCount : Nat
  duckType : Nat
  topic : Nat
deriving DecidableEq

/-- std::string(v.begin(), v.end()): byte vector read as a string. -/
def byteStr (bs : List Byte) : String :=
  String.mk (bs.map Char.ofNat)

/-- A JSON value as stored in the StaticJsonDocument by quackJson:
either a string or a number. -/
inductive JsonVal where
  | str : String → JsonVal
  | num : Nat → JsonVal
deriving DecidableEq

/-- Embedding of the document built by quackJson (PapaDuck.ino lines
170-175): the six doc[...] assignments, in source order. -/
def quackJsonDoc (p : CdpPacket) : List (String × JsonVal) :=
  [("DeviceID", JsonVal.str (byteStr p.sduid)),
   ("MessageID", JsonVal.str (byteStr p.muid)),
   ("Payload", JsonVal.str (byteStr p.data)),
   ("path", JsonVal.str (byteStr p.path)),
   ("hops", JsonVal.num p.hopCount),
   ("duckType", JsonVal.num p.duckType)]

/-- Embedding of the topic string built by quackJson (line 186):
"iot-2/evt/" + cdpTopic + "/fmt/json". -/
def quackJsonTopic (p : CdpPacket) : String :=
  "iot-2/evt/" ++ toTopicString p.topic ++ "/fmt/json"

/-- Spec-side definition, following the spec's words: messages are
published "to a topic string of the form prefix/topicName/suffix". -/
def specTopicForm (pre mid suf : String) : String :=
  pre ++ "/" ++ mid ++ "/" ++ suf

/-- Spec-side definition: the spec's field list for the published message,
"a structured object with fields \x7bDeviceID, MessageID, Payload, path,
hops, duckType\x7d". -/
def specMessageFields : List String :=
  ["DeviceID", "MessageID", "Payload", "path", "hops", "duckType"]

/-- Return value of quackJson (lines 191-204): 0 when client.publish
succeeded, -1 when it failed.  The publish outcome is an oracle input. -/
def quackJsonResult (publishOk : Bool) : Int :=
  if publishOk then 0 else -1

/-- The enqueue step inside handleDuckData (lines 213-218): if the queue
size exceeds QUEUE_SIZE_MAX, pop the front first, then push the packet at
the back. -/
def enqueuePacket (q : List Packet) (p : Packet) : List Packet :=
  if q.length > QUEUE_SIZE_MAX then q.tail ++ [p] else q ++ [p]

/-- Embedding of handleDuckData (lines 209-222): if quackJson returned -1
(publish failed), retain the raw packet via the enqueue step; otherwise the
queue is untouched. -/
def handleDuckData (publishOk : Bool) (q : List Packet) (p : Packet) :
    List Packet :=
  if quackJsonResult publishOk = -1 then enqueuePacket q p else q

/-- Embedding of publishQueue (lines 322-332): while the queue is nonempty,
attempt to publish the front packet; on success pop it and continue, on
failure return at once.  The oracle pub gives the result of the i-th
publish attempt of the pass.  Returns the final queue together with the
list of packets for which a publish attempt was made, in attempt order. -/
def publishQueue (pub : Nat → Bool) : Nat → List Packet → List Packet × List Packet
  | _, [] => ([], [])
  | i, p :: ps =>
    if pub i then
      let r := publishQueue pub (i + 1) ps
      (r.1, p :: r.2)
    else (p :: ps, [p])

/-- The retention-queue states reachable by the sketch: packetQueue starts
empty; handleDuckData may run with any packet and any publish outcome; a
drain pass (publishQueue, called from setup_mqtt) may run with any sequence
of publish outcomes. -/
inductive QueueReachable : List Packet → Prop
  | init : QueueReachable []
  | arrive (publishOk : Bool) (p : Packet) {q : List Packet} :
      QueueReachable q → QueueReachable (handleDuckData publishOk q p)
  | drain (pub : Nat → Bool) {q : List Packet} :
      QueueReachable q → QueueReachable (publishQueue pub 0 q).1

/-- Oracle inputs for one iteration of loop() (lines 260-281): the tick
time in milliseconds, the WiFi link state reported by duck.isWifiConnected,
the result of duck.reconnectWifi if it is called, the result of
client.connected, the result of client.connect if it is called, the publish
outcomes of a drain pass, and the packets delivered by duck.run together
with the outcome of their immediate publish attempt. -/
structure Env where
  time : Nat
  wifiUp : Bool
  wifiReconnectOk : Bool
  mqttAlreadyConnected : Bool
  mqttConnectOk : Bool
  pubOk : Nat → Bool
  arrivals : List (Bool × Packet)

/-- The sketch's mutable state touched by loop(): the shared retry flag,
the pending one-shot timer tasks of the arduino-timer (each task is
enableRetry, so only its absolute fire time matters), and packetQueue. -/
structure St where
  retry : Bool
  timers : List Nat
  queue : List Packet
deriving DecidableEq

/-- Result of one loop() iteration: the new state, and whether
duck.reconnectWifi respectively client.connect were called this tick. -/
structure TickOut where
  st : St
  wifiAttempt : Bool
  mqttAttempt : Bool

/-- Embedding of one iteration of loop() (lines 260-281) together with
setup_mqtt (283-309), enableRetry (311-314) and retry_mqtt_connection
(316-320).  In source order: the WiFi-reconnect branch (guarded by
!isWifiConnected && retry; on failure clears retry and arms a 5000 ms
timer), the MQTT branch (guarded by isWifiConnected && retry; drains the
queue when connected, otherwise calls client.connect, and on failure
clears retry and arms a 1000 ms timer), duck.run() delivering packets to
handleDuckData, and timer.tick() firing every due task (each task is
enableRetry, which sets retry back to true). -/
def loopTick (e : Env) (s : St) : TickOut :=
  let wifiAttempt := !e.wifiUp && s.retry
  let wifiFailed := wifiAttempt && !e.wifiReconnectOk
  let retry1 := if wifiFailed then false else s.retry
  let timers1 := if wifiFailed then s.timers ++ [e.time + 5000] else s.timers
  let wifiNow := e.wifiUp || (wifiAttempt && e.wifiReconnectOk)
  let mqttBranch := wifiNow && retry1
  let mqttAttempt := mqttBranch && !e.mqttAlreadyConnected
  let queue1 :=
    if mqttBranch && (e.mqttAlreadyConnected || e.mqttConnectOk) then
      (publishQueue e.pubOk 0 s.queue).1
    else s.queue
  let mqttFailed := mqttAttempt && !e.mqttConnectOk
  let retry2 := if mqttFailed then false else retry1
  let timers2 := if mqttFailed then timers1 ++ [e.time + 1000] else timers1
  let queue2 := e.arrivals.foldl (fun q a => handleDuckData a.1 q a.2) queue1
  let fired := timers2.any (fun t => decide (t ≤ e.time))
  let retry3 := if fired then true else retry2
  let timers3 := timers2.filter (fun t => decide (e.time < t))
  ⟨⟨retry3, timers3, queue2⟩, wifiAttempt, mqttAttempt⟩

/-- Run a sequence of loop() iterations from a state, counting how many
client.connect attempts were made. -/
def runTicks (es : List Env) (s : St) : St × Nat :=
  match es with
  | [] => (s, 0)
  | e :: rest =>
    let o := loopTick e s
    let r := runTicks rest o.st
    (r.1, (if o.mqttAttempt then 1 else 0) + r.2)

/-! ## Helper lemmas -/

/-- When the publish attempt failed, handleDuckData performs the enqueue
step. -/
lemma handleDuckData_false_eq : handleDuckData false = enqueuePacket :=
  funext fun _q => funext fun _p => rfl

/-- When the publish attempt succeeded, handleDuckData leaves the queue
untouched. -/
lemma handleDuckData_true_eq (q : List Packet) (p : Packet) :
    handleDuckData true q p = q := rfl

/-- While the queue is at or below capacity, the enqueue step only
appends. -/
lemma foldl_enqueue_small (ps : List Packet) :
    ∀ q : List Packet, q.length + ps.length ≤ QUEUE_SIZE_MAX + 1 →
      List.foldl enqueuePacket q ps = q ++ ps := by
  induction ps with
  | nil => intro q _; simp
  | cons p ps ih =>
    intro q h
    have hq : ¬ q.length > QUEUE_SIZE_MAX := by
      simp only [List.length_cons] at h; omega
    have hstep : enqueuePacket q p = q ++ [p] := by
      simp [enqueuePacket, hq]
    rw [List.foldl_cons, hstep, ih (q ++ [p]) (by simp at h ⊢; omega)]
    simp

/-- Once the queue reaches QUEUE_SIZE_MAX + 1 elements, each enqueue step
pops the front and pushes at the back, keeping the last
QUEUE_SIZE_MAX + 1 elements. -/
lemma foldl_enqueue_full (ps : List Packet) :
    ∀ q : List Packet, q.length = QUEUE_SIZE_MAX + 1 →
      List.foldl enqueuePacket q ps = (q ++ ps).drop ps.length := by
  induction ps with
  | nil => intro q _; simp
  | cons p ps ih =>
    intro q h
    cases q with
    | nil => simp [QUEUE_SIZE_MAX] at h
    | cons a q =>
      simp only [List.length_cons] at h
      have hgt : (a :: q).length > QUEUE_SIZE_MAX := by
        simp only [List.length_cons]; omega
      have hstep : enqueuePacket (a :: q) p = q ++ [p] := by
        unfold enqueuePacket
        rw [if_pos hgt]
        rfl
      have hlen : (q ++ [p]).length = QUEUE_SIZE_MAX + 1 := by
        simp only [List.length_append, List.length_cons, List.length_nil]
        omega
      rw [List.foldl_cons, hstep, ih (q ++ [p]) hlen]
      simp [List.append_assoc]

/-- Starting from the empty queue, a long enough all-failing arrival
sequence leaves exactly the last QUEUE_SIZE_MAX + 1 packets. -/
lemma foldl_enqueue_ge (ps : List Packet)
    (h : QUEUE_SIZE_MAX + 1 ≤ ps.length) :
    List.foldl enqueuePacket [] ps =
      ps.drop (ps.length - (QUEUE_SIZE_MAX + 1)) := by
  have hsplit : ps = ps.take (QUEUE_SIZE_MAX + 1) ++ ps.drop (QUEUE_SIZE_MAX + 1) :=
    (List.take_append_drop _ _).symm
  have htl : (ps.take (QUEUE_SIZE_MAX + 1)).length = QUEUE_SIZE_MAX + 1 := by
    simp only [List.length_take]; omega
  have hinner :
      List.foldl enqueuePacket [] (ps.take (QUEUE_SIZE_MAX + 1)) =
        ps.take (QUEUE_SIZE_MAX + 1) := by
    have := foldl_enqueue_small (ps.take (QUEUE_SIZE_MAX + 1)) []
      (by simp [htl])
    simpa using this
  calc List.foldl enqueuePacket [] ps
      = List.foldl enqueuePacket
          (List.foldl enqueuePacket [] (ps.take (QUEUE_SIZE_MAX + 1)))
          (ps.drop (QUEUE_SIZE_MAX + 1)) := by
        conv_lhs => rw [hsplit]
        rw [List.foldl_append]
    _ = List.foldl enqueuePacket (ps.take (QUEUE_SIZE_MAX + 1))
          (ps.drop (QUEUE_SIZE_MAX + 1)) := by rw [hinner]
    _ = (ps.take (QUEUE_SIZE_MAX + 1) ++ ps.drop (QUEUE_SIZE_MAX + 1)).drop
          (ps.drop (QUEUE_SIZE_MAX + 1)).length := foldl_enqueue_full _ _ htl
    _ = ps.drop (ps.length - (QUEUE_SIZE_MAX + 1)) := by
        rw [← hsplit]
        simp [List.length_drop]

/-- A drain pass never lengthens the queue. -/
lemma publishQueue_fst_length_le (pub : Nat → Bool) :
    ∀ (l : List Packet) (i : Nat),
      (publishQueue pub i l).1.length ≤ l.length := by
  intro l
  induction l with
  | nil => intro i; simp [publishQueue]
  | cons p ps ih =>
    intro i
    by_cases hp : pub i
    · simp only [publishQueue, hp, if_true]
      exact le_trans (ih (i + 1)) (by simp)
    · simp [publishQueue, hp]

/-- Every reachable retention-queue state has at most
QUEUE_SIZE_MAX + 1 elements. -/
lemma reachable_length_le {q : List Packet} (h : QueueReachable q) :
    q.length ≤ QUEUE_SIZE_MAX + 1 := by
  induction h with
  | init => simp
  | arrive publishOk p hq ih =>
    cases publishOk with
    | true => simpa [handleDuckData_true_eq] using ih
    | false =>
      rw [handleDuckData_false_eq]
      unfold enqueuePacket
      split
      · rename_i hgt
        simp only [List.length_append, List.length_cons, List.length_nil,
          List.length_tail]
        omega
      · rename_i hle
        simp only [List.length_append, List.length_cons, List.length_nil]
        omega
  | drain pub hq ih =>
    exact le_trans (publishQueue_fst_length_le pub _ 0) ih

/-- A drain pass whose first k publish attempts succeed and whose
(k+1)-st fails removes exactly the first k packets and attempts exactly
the first k+1. -/
lemma publishQueue_stops (pub : Nat → Bool) :
    ∀ (k : Nat) (l : List Packet) (j : Nat), k < l.length →
      (∀ i, i < k → pub (j + i) = true) → pub (j + k) = false →
      publishQueue pub j l = (l.drop k, l.take (k + 1)) := by
  intro k
  induction k with
  | zero =>
    intro l j hk _ hfail
    cases l with
    | nil => simp at hk
    | cons p ps =>
      simp only [Nat.add_zero] at hfail
      simp [publishQueue, hfail]
  | succ k ih =>
    intro l j hk hsucc hfail
    cases l with
    | nil => simp at hk
    | cons p ps =>
      have hp : pub j = true := by
        have := hsucc 0 (Nat.succ_pos k)
        simpa using this
      have hrec := ih ps (j + 1) (by simp at hk; omega)
        (fun i hi => by
          have := hsucc (i + 1) (by omega)
          have harith : j + (i + 1) = j + 1 + i := by omega
          rwa [harith] at this)
        (by
          have harith : j + (k + 1) = j + 1 + k := by omega
          rwa [harith] at hfail)
      simp only [publishQueue, hp, if_true, hrec]
      simp

/-- A drain pass in which every publish attempt succeeds empties the
queue and attempts every packet in order. -/
lemma publishQueue_all_ok (pub : Nat → Bool) (hp : ∀ i, pub i = true) :
    ∀ (l : List Packet) (j : Nat), publishQueue pub j l = ([], l) := by
  intro l
  induction l with
  | nil => intro j; simp [publishQueue]
  | cons p ps ih =>
    intro j
    simp [publishQueue, hp j, ih (j + 1)]

/-- A loop iteration in the waiting phase (retry cleared, one pending
timer not yet due) attempts nothing and only lets arrivals update the
queue. -/
lemma loopTick_backoff (e : Env) (tmr : Nat) (q : List Packet)
    (h : e.time < tmr) :
    loopTick e ⟨false, [tmr], q⟩ =
      ⟨⟨false, [tmr],
          e.arrivals.foldl (fun q2 a => handleDuckData a.1 q2 a.2) q⟩,
        false, false⟩ := by
  have h1 : ¬ tmr ≤ e.time := by omega
  simp [loopTick, h, h1]

/-- A loop iteration at which the pending timer is due fires enableRetry
at the end of the tick: no attempts are made, retry is set. -/
lemma loopTick_fire (e : Env) (tmr : Nat) (q : List Packet)
    (h : tmr ≤ e.time) :
    loopTick e ⟨false, [tmr], q⟩ =
      ⟨⟨true, [],
          e.arrivals.foldl (fun q2 a => handleDuckData a.1 q2 a.2) q⟩,
        false, false⟩ := by
  have h1 : ¬ e.time < tmr := by omega
  simp [loopTick, h, h1]

/-- With retry set, WiFi up and the client disconnected, the loop body
calls client.connect. -/
lemma loopTick_attempt (e : Env) (tmrs : List Nat) (q : List Packet)
    (hw : e.wifiUp = true) (hm : e.mqttAlreadyConnected = false) :
    (loopTick e ⟨true, tmrs, q⟩).mqttAttempt = true := by
  simp [loopTick, hw, hm]

/-- runTicks splits over list append. -/
lemma runTicks_append (es fs : List Env) (s : St) :
    runTicks (es ++ fs) s =
      ((runTicks fs (runTicks es s).1).1,
        (runTicks es s).2 + (runTicks fs (runTicks es s).1).2) := by
  induction es generalizing s with
  | nil => simp [runTicks]
  | cons e es ih =>
    simp only [List.cons_append, runTicks, List.append_eq]
    rw [ih]
    simp [Nat.add_assoc]

/-- While the backoff timer is pending and not yet due, no tick makes a
connect attempt and the retry flag and timer are untouched. -/
lemma runTicks_backoff (tmr : Nat) :
    ∀ (es : List Env) (q : List Packet), (∀ e ∈ es, e.time < tmr) →
      ∃ q2, runTicks es ⟨false, [tmr], q⟩ = (⟨false, [tmr], q2⟩, 0) := by
  intro es
  induction es with
  | nil => intro q _; exact ⟨q, rfl⟩
  | cons e es ih =>
    intro q hall
    have he : e.time < tmr := hall e (List.mem_cons_self e es)
    have hrest : ∀ x ∈ es, x.time < tmr :=
      fun x hx => hall x (List.mem_cons_of_mem e hx)
    obtain ⟨q2, hq2⟩ :=
      ih (e.arrivals.foldl (fun q2 a => handleDuckData a.1 q2 a.2) q) hrest
    refine ⟨q2, ?_⟩
    simp only [runTicks] at hq2 ⊢
    rw [loopTick_backoff e tmr q he]
    simpa using hq2

/-- String concatenation is associative. -/
lemma string_append_assoc (a b c : String) : (a ++ b) ++ c = a ++ (b ++ c) :=
  String.ext (List.append_assoc a.data b.data c.data)

/-! ## Claim theorems -/

/-- Claim C1, counterexample: with the default capacity 5, a sequence of
QUEUE_SIZE_MAX + 1 = 6 packets whose publish attempts all fail leaves ALL
six packets in the retention queue — the oldest is not dropped, so the
queue does not equal the last five packets of the sequence as the claim
states (handleDuckData evicts only when size already exceeds
QUEUE_SIZE_MAX). -/
theorem c1_drop_oldest_counterexample :
    ([[0], [1], [2], [3], [4], [5]] : List Packet).length =
      QUEUE_SIZE_MAX + 1 ∧
    List.foldl (handleDuckData false) [] [[0], [1], [2], [3], [4], [5]] ≠
      ([[0], [1], [2], [3], [4], [5]] : List Packet).drop 1 := by
  decide

/-- Claim C1, amended: the eviction happens one arrival later than the
claim states.  For every sequence of QUEUE_SIZE_MAX + 2 packets whose
publish attempts all fail, after the enqueues performed by handleDuckData
the retention queue holds exactly the last QUEUE_SIZE_MAX + 1 packets of
the sequence, in arrival order (only the very oldest packet having been
dropped). -/
theorem c1_drop_oldest_amended (ps : List Packet)
    (h : ps.length = QUEUE_SIZE_MAX + 2) :
    List.foldl (handleDuckData false) [] ps = ps.drop 1 := by
  rw [handleDuckData_false_eq, foldl_enqueue_ge ps (by omega)]
  simp [h]

/-- Claim C1, witness for the amended theorem at a concrete seven-packet
sequence. -/
theorem c1_drop_oldest_amended_witness :
    List.foldl (handleDuckData false) []
        [[0], [1], [2], [3], [4], [5], [6]] =
      ([[0], [1], [2], [3], [4], [5], [6]] : List Packet).drop 1 :=
  c1_drop_oldest_amended [[0], [1], [2], [3], [4], [5], [6]] (by decide)

/-- Claim C2, counterexample: a reachable retention-queue state (six
packets, each arriving while its publish attempt failed, observed after
handleDuckData has returned, i.e. outside the insert-then-possibly-evict
step) whose length exceeds the configured capacity QUEUE_SIZE_MAX = 5. -/
theorem c2_capacity_counterexample :
    QueueReachable [[0], [1], [2], [3], [4], [5]] ∧
    ¬ ([[0], [1], [2], [3], [4], [5]] : List Packet).length ≤
        QUEUE_SIZE_MAX := by
  constructor
  · have h0 : QueueReachable ([] : List Packet) := QueueReachable.init
    have h1 : QueueReachable [[0]] := QueueReachable.arrive false [0] h0
    have h2 : QueueReachable [[0], [1]] := QueueReachable.arrive false [1] h1
    have h3 : QueueReachable [[0], [1], [2]] :=
      QueueReachable.arrive false [2] h2
    have h4 : QueueReachable [[0], [1], [2], [3]] :=
      QueueReachable.arrive false [3] h3
    have h5 : QueueReachable [[0], [1], [2], [3], [4]] :=
      QueueReachable.arrive false [4] h4
    exact QueueReachable.arrive false [5] h5
  · decide

/-- Claim C2, amended: in every reachable state of the program (any
interleaving of packet arrivals with failing or succeeding publishes and
drain passes) the length of packetQueue is at most QUEUE_SIZE_MAX + 1 (6
with the default capacity 5) at all observation points. -/
theorem c2_capacity_amended (q : List Packet) (h : QueueReachable q) :
    q.length ≤ QUEUE_SIZE_MAX + 1 :=
  reachable_length_le h

/-- Claim C2, witness for the amended theorem at a concrete reachable
state. -/
theorem c2_capacity_amended_witness :
    ([[0]] : List Packet).length ≤ QUEUE_SIZE_MAX + 1 :=
  c2_capacity_amended [[0]] (QueueReachable.arrive false [0] QueueReachable.init)

/-- Claim C3: if during a drain pass the publish succeeds for the first
k-1 queued packets and fails for the k-th, then publishQueue removes
exactly the first k-1 packets, the rest remain in their original order,
and publish attempts were made exactly for the first k packets (none for
the packets after the k-th). -/
theorem c3_drain_stops_at_failure (l : List Packet) (k : Nat)
    (pub : Nat → Bool) (hk1 : 1 ≤ k) (hk2 : k ≤ l.length)
    (hsucc : ∀ i, i + 1 < k → pub i = true) (hfail : pub (k - 1) = false) :
    (publishQueue pub 0 l).1 = l.drop (k - 1) ∧
    (publishQueue pub 0 l).2 = l.take k := by
  cases k with
  | zero => omega
  | succ k0 =>
    have h := publishQueue_stops pub k0 l 0 (by omega)
      (fun i hi => by simpa using hsucc i (by omega))
      (by simpa using hfail)
    simp [h]

/-- Claim C3, witness: queue of three packets, first publish succeeds,
second fails (k = 2): the first packet is removed, the last two remain in
order, and only the first two packets were attempted. -/
theorem c3_drain_stops_at_failure_witness :
    (publishQueue (fun i => decide (i = 0)) 0 [[1], [2], [3]]).1 =
        [[2], [3]] ∧
    (publishQueue (fun i => decide (i = 0)) 0 [[1], [2], [3]]).2 =
        [[1], [2]] := by
  have h := c3_drain_stops_at_failure [[1], [2], [3]] 2
    (fun i => decide (i = 0)) (by decide) (by decide)
    (fun i hi => by
      have hz : i = 0 := by omega
      subst hz; rfl)
    (by rfl)
  simpa using h

/-- Claim C4, counterexample: the empty packet is shorter than the
minimum frame size, yet when its publish attempt fails handleDuckData
enqueues it in the retention queue — the receive path performs no
decode-failure filtering, contradicting the claim that such a packet is
never enqueued. -/
theorem c4_short_packet_counterexample :
    ([] : Packet).length < MIN_FRAME_SIZE ∧
    ([] : Packet) ∈ handleDuckData false [] [] := by
  decide

/-- Claim C4, amended: the receive path performs no minimum-length check:
a packet shorter than the minimum frame size is processed by
handleDuckData exactly like any other packet — the queue is untouched
when the publish attempt succeeds, and the packet is enqueued (with the
usual overflow step) when the publish attempt fails. -/
theorem c4_no_length_check (p : Packet) (q : List Packet)
    (publishOk : Bool) (_h : p.length < MIN_FRAME_SIZE) :
    handleDuckData publishOk q p =
      if publishOk then q else enqueuePacket q p := by
  cases publishOk <;> rfl

/-- Claim C4, witness for the amended theorem at the empty packet with a
failed publish. -/
theorem c4_no_length_check_witness :
    handleDuckData false [] [] =
      if false then ([] : List Packet) else enqueuePacket [] [] :=
  c4_no_length_check [] [] false (by decide)

/-- Claim C5: after a failed MQTT connect at time t0 the sketch is in the
state (retry = false, one pending enableRetry task due at t0 + 1000).
For every sequence of loop ticks all occurring before t0 + 1000,
no client.connect attempt is made; the first tick at or after t0 + 1000
still makes no attempt (the timer fires at the end of that tick,
re-setting retry), and the following tick — WiFi connected, client still
disconnected — makes exactly one connect attempt, so exactly one attempt
occurs in the whole run once the backoff delay has elapsed. -/
theorem c5_transport_backoff (t0 : Nat) (q : List Packet) (es : List Env)
    (e1 e2 : Env) (hpre : ∀ e ∈ es, e.time < t0 + 1000)
    (hfire : t0 + 1000 ≤ e1.time)
    (hw : e2.wifiUp = true) (hm : e2.mqttAlreadyConnected = false) :
    (runTicks es ⟨false, [t0 + 1000], q⟩).2 = 0 ∧
    (runTicks (es ++ [e1]) ⟨false, [t0 + 1000], q⟩).2 = 0 ∧
    (runTicks (es ++ [e1, e2]) ⟨false, [t0 + 1000], q⟩).2 = 1 := by
  obtain ⟨q2, hq2⟩ := runTicks_backoff (t0 + 1000) es q hpre
  refine ⟨by simp [hq2], ?_, ?_⟩
  · rw [runTicks_append, hq2]
    simp [runTicks, loopTick_fire e1 _ _ hfire]
  · rw [runTicks_append, hq2]
    simp [runTicks, loopTick_fire e1 _ _ hfire,
      loopTick_attempt e2 _ _ hw hm]

/-- Claim C5, witness: backoff armed at time 0, a tick at 500 makes no
attempt, the tick at 1000 fires the timer, the tick at 1200 makes the
single connect attempt. -/
theorem c5_transport_backoff_witness :
    (runTicks [⟨500, true, true, false, false, fun _ => true, []⟩]
        ⟨false, [1000], []⟩).2 = 0 ∧
    (runTicks ([⟨500, true, true, false, false, fun _ => true, []⟩] ++
        [⟨1000, true, true, false, false, fun _ => true, []⟩])
        ⟨false, [1000], []⟩).2 = 0 ∧
    (runTicks ([⟨500, true, true, false, false, fun _ => true, []⟩] ++
        [⟨1000, true, true, false, false, fun _ => true, []⟩,
         ⟨1200, true, true, false, false, fun _ => true, []⟩])
        ⟨false, [1000], []⟩).2 = 1 := by
  have h := c5_transport_backoff 0 []
    [⟨500, true, true, false, false, fun _ => true, []⟩]
    ⟨1000, true, true, false, false, fun _ => true, []⟩
    ⟨1200, true, true, false, false, fun _ => true, []⟩
    (by
      intro e he
      rw [List.mem_singleton] at he
      subst he
      decide)
    (by decide) rfl rfl
  simpa using h

/-- Claim C6, counterexample: the two backoff machines are not
independent.  At time 0 (WiFi up, client down) the MQTT connect fails and
enters its waiting phase (retry cleared, timer at 1000).  At time 100 the
WiFi link is down and a reconnect would succeed, but no WiFi reconnect
attempt is made — whereas from the same environment without the MQTT
backoff the WiFi reconnect attempt does occur.  Entering the MQTT waiting
phase therefore suppresses local-network connection attempts. -/
theorem c6_orthogonality_counterexample :
    (loopTick ⟨100, false, true, false, false, fun _ => false, []⟩
        (loopTick ⟨0, true, true, false, false, fun _ => false, []⟩
          ⟨true, [], []⟩).st).wifiAttempt = false ∧
    (loopTick ⟨100, false, true, false, false, fun _ => false, []⟩
        ⟨true, [], []⟩).wifiAttempt = true :=
  ⟨rfl, rfl⟩

/-- Claim C6, amended: the WiFi and MQTT retry machines are coupled
through the single shared flag retry and the shared timer callback
enableRetry: whenever either machine is in its waiting phase (retry
cleared), a loop tick makes neither a WiFi reconnect attempt nor an MQTT
connect attempt, until a timer fires and re-enables both at once. -/
theorem c6_shared_retry_flag (e : Env) (s : St) (h : s.retry = false) :
    (loopTick e s).wifiAttempt = false ∧
    (loopTick e s).mqttAttempt = false := by
  simp [loopTick, h]

/-- Claim C6, witness for the amended theorem at a concrete state with
retry cleared. -/
theorem c6_shared_retry_flag_witness :
    (loopTick ⟨0, true, true, false, false, fun _ => true, []⟩
        ⟨false, [], []⟩).wifiAttempt = false ∧
    (loopTick ⟨0, true, true, false, false, fun _ => true, []⟩
        ⟨false, [], []⟩).mqttAttempt = false :=
  c6_shared_retry_flag _ _ rfl

/-- Claim C7: the topic router toTopicString is a pure total function:
every topic-code byte maps to one of the six routing strings, and every
code outside the known enumerated set maps to the default "status". -/
theorem c7_topic_router_total (b : Nat) (_hb : b < 256) :
    toTopicString b ∈
      (["status", "portal", "sensor", "alert", "gps", "health"] :
        List String) ∧
    (b ∉ ([topics.status, topics.cpm, topics.sensor, topics.alert,
        topics.location, topics.health] : List Nat) →
      toTopicString b = "status") := by
  constructor
  · unfold toTopicString
    split_ifs <;> simp
  · intro h
    unfold toTopicString
    split_ifs with h1 h2 h3 h4 h5 h6
    · rfl
    all_goals first
      | rfl
      | (exfalso; apply h; simp_all)

/-- Claim C7, witness at the unrecognized code 200. -/
theorem c7_topic_router_total_witness :
    toTopicString 200 ∈
      (["status", "portal", "sensor", "alert", "gps", "health"] :
        List String) ∧
    (200 ∉ ([topics.status, topics.cpm, topics.sensor, topics.alert,
        topics.location, topics.health] : List Nat) →
      toTopicString 200 = "status") :=
  c7_topic_router_total 200 (by decide)

/-- Claim C8: if the queue is non-empty and every publish attempt of the
drain pass succeeds, a single call to publishQueue removes every queued
packet (the queue is left empty) and the publish attempts cover exactly
the queued packets in their original arrival order. -/
theorem c8_drain_empties (l : List Packet) (pub : Nat → Bool)
    (_hne : l ≠ []) (hp : ∀ i, pub i = true) :
    (publishQueue pub 0 l).1 = [] ∧ (publishQueue pub 0 l).2 = l := by
  have h := publishQueue_all_ok pub hp l 0
  simp [h]

/-- Claim C8, witness at a concrete two-packet queue with an
always-succeeding publish. -/
theorem c8_drain_empties_witness :
    (publishQueue (fun _ => true) 0 [[7], [8]]).1 = [] ∧
    (publishQueue (fun _ => true) 0 [[7], [8]]).2 = [[7], [8]] :=
  c8_drain_empties [[7], [8]] (fun _ => true) (by decide) (fun _ => rfl)

/-- Claim C9: for every decoded packet, the document built by quackJson
carries exactly the fields DeviceID, MessageID, Payload, path, hops,
duckType (in that order), each taken from the corresponding field of the
decoded packet, and the topic string has the spec's form
prefix/topicName/suffix with the router's output as topicName. -/
theorem c9_published_message_shape (p : CdpPacket) :
    (quackJsonDoc p).map Prod.fst = specMessageFields ∧
    quackJsonTopic p =
      specTopicForm "iot-2/evt" (toTopicString p.topic) "fmt/json" ∧
    (quackJsonDoc p).lookup "DeviceID" =
      some (JsonVal.str (byteStr p.sduid)) ∧
    (quackJsonDoc p).lookup "MessageID" =
      some (JsonVal.str (byteStr p.muid)) ∧
    (quackJsonDoc p).lookup "Payload" =
      some (JsonVal.str (byteStr p.data)) ∧
    (quackJsonDoc p).lookup "path" =
      some (JsonVal.str (byteStr p.path)) ∧
    (quackJsonDoc p).lookup "hops" = some (JsonVal.num p.hopCount) ∧
    (quackJsonDoc p).lookup "duckType" = some (JsonVal.num p.duckType) := by
  refine ⟨rfl, ?_, rfl, rfl, rfl, rfl, rfl, rfl⟩
  show "iot-2/evt/" ++ toTopicString p.topic ++ "/fmt/json" =
    "iot-2/evt" ++ "/" ++ toTopicString p.topic ++ "/" ++ "fmt/json"
  rw [string_append_assoc ("iot-2/evt" ++ "/" ++ toTopicString p.topic)
    "/" "fmt/json"]
  rfl

/-- Claim C10: in every reachable state the retention queue holds at most
QUEUE_SIZE_MAX + 1 packets, and when handleDuckData takes its overflow
branch (size already above QUEUE_SIZE_MAX) the pop-then-push leaves the
queue length unchanged, so the length stays bounded for the process
lifetime. -/
theorem c10_queue_bounded :
    (∀ q : List Packet, QueueReachable q →
      q.length ≤ QUEUE_SIZE_MAX + 1) ∧
    (∀ (q : List Packet) (p : Packet), QUEUE_SIZE_MAX < q.length →
      (handleDuckData false q p).length = q.length) := by
  refine ⟨fun q h => reachable_length_le h, fun q p h => ?_⟩
  rw [handleDuckData_false_eq]
  unfold enqueuePacket
  rw [if_pos h]
  simp only [List.length_append, List.length_cons, List.length_nil,
    List.length_tail]
  omega

/-- Claim C10, witness: the bound at a concrete reachable one-packet
state, and length preservation when a packet arrives at a full (six
element) queue. -/
theorem c10_queue_bounded_witness :
    ([[0]] : List Packet).length ≤ QUEUE_SIZE_MAX + 1 ∧
    (handleDuckData false [[0], [1], [2], [3], [4], [5]] [9]).length =
      ([[0], [1], [2], [3], [4], [5]] : List Packet).length :=
  ⟨c10_queue_bounded.1 [[0]]
      (QueueReachable.arrive false [0] QueueReachable.init),
    c10_queue_bounded.2 [[0], [1], [2], [3], [4], [5]] [9] (by decide)⟩

end PapaDuck
